import Mathlib

/-!
Shallow embedding of the BS9295 buried-pipe utilisation calculation pipeline.

The authoritative core variant is the script `FormerCalcTest.py`; the divergent
historical variants `PipeUtilisation.py` and `Pipe2Excel.py` are embedded only
where a claim is about them (the Leonhardt wide-trench short-circuit and the
property-dictionary construction).  Python floats are modelled as exact
rationals wherever the source only performs field arithmetic; the soil-buckling
critical pressure uses real powers with the literal exponents `0.67` and `0.33`
of the source, so those quantities live in `ℝ`.  Python exceptions that the
claims are about (IndexError on the parallel surcharge list) are modelled by
`Except`; an out-of-range index aborts the whole computation, exactly as an
uncaught Python exception would.
-/

namespace FormerCalcTest

/-- Native soil modulus constant, MN/m² (`soil_modulus = 3`). -/
def soil_modulus : ℚ := 3

/-- Embedment modulus constant, MN/m² (`embed_modulus = 10`). -/
def embed_modulus : ℚ := 10

/-- Perforation stiffness reduction factor (`perforation_red = 0.95`). -/
def perforation_red : ℚ := 0.95

/-- Soil density, kN/m³ (`soil_density = 19.6`). -/
def soil_density : ℚ := 19.6

/-- Water density, kN/m³ (`water_density = 10.0`). -/
def water_density : ℚ := 10

/-- Pipe long-term modulus, N/mm² (`long_modulus = 150`). -/
def long_modulus : ℚ := 150

/-- Pipe short-term modulus, N/mm² (`short_modulus = 800`). -/
def short_modulus : ℚ := 800

/-- Deflection coefficient (`deflection_coeff = 0.083`). -/
def deflection_coeff : ℚ := 0.083

/-- Deflection lag factor (`deflection_lag = 1.0`). -/
def deflection_lag : ℚ := 1

/-- Maximum allowable ovalisation in percent (`oval_limit = 5.0`). -/
def oval_limit : ℚ := 5

/-- Partial factor, permanent unfavourable (`gamma_uf = 1.1`). -/
def gamma_uf : ℚ := 1.1

/-- Partial factor, permanent favourable (`gamma_f = 0.9`). -/
def gamma_f : ℚ := 0.9

/-- Minimum factor of safety for buckling with soil (`BUCKLING_FOS_MIN = 2.0`). -/
def BUCKLING_FOS_MIN : ℚ := 2

/-- Minimum factor of safety for buckling without soil (`BUCKLING_FOS_MIN_AIR = 1.5`). -/
def BUCKLING_FOS_MIN_AIR : ℚ := 1.5

/-- Minimum depth to avoid tamping damage, m (`tamping_depth = 0.4`). -/
def tamping_depth : ℚ := 0.4

/-- The two SDR wall-thickness classes of the scripts. -/
inductive SDR
| SDR11
| SDR17

/-- Pipe weights per class, kN/m (`PIPE_WEIGHTS` dictionary). -/
def PIPE_WEIGHTS : SDR → ℚ
| SDR.SDR11 => 0.25
| SDR.SDR17 => 0.16

/-- Initial ovalisation by SDR index (`INITIAL_OVAL = {0: 1.25, 1: 1.25}`);
the source dictionary only carries the keys 0 and 1, which are the only
indices the engine ever uses. -/
def INITIAL_OVAL : ℕ → ℚ
| 0 => 1.25
| _ + 1 => 1.25

/-- Class of the source's `sdr_type = "SDR11" if sdr_idx == 0 else "SDR17"`. -/
def sdr_type_of (sdr_idx : ℕ) : SDR :=
  if sdr_idx = 0 then SDR.SDR11 else SDR.SDR17

/-- Dictionary of pipe properties (`make_pipe_dict`): entry `(d, s11[i], s17[i])`
for the i-th diameter.  A Python dict built from distinct keys in insertion
order is exactly this association list; `s11[i]` or `s17[i]` out of range is a
Python IndexError, modelled by `none`. -/
def make_pipe_dict (diams s11 s17 : List ℚ) : Option (List (ℚ × ℚ × ℚ)) :=
  if diams.length ≤ s11.length ∧ diams.length ≤ s17.length then
    some (diams.zip (s11.zip s17))
  else none

/-- Pipe stiffness per BS9295 Eq (31) using mean diameter (`pipe_stiffness`). -/
def pipe_stiffness (OD t modulus : ℚ) (perforated : Bool := true) : ℚ :=
  let MD := OD - t
  let I := t ^ 3 / 12
  let stiffness_val := modulus * I / MD ^ 3
  if perforated then stiffness_val * perforation_red else stiffness_val

/-- Numerator of Leonhardt's coefficient BS9295 Eq (29)
(the local `num` of `leonhardt_factor`). -/
def leonhardt_num (B_trench D_pipe : ℚ) : ℚ :=
  0.985 + 0.544 * (B_trench / D_pipe)

/-- Denominator of Leonhardt's coefficient BS9295 Eq (29)
(the local `denom` of `leonhardt_factor`). -/
def leonhardt_denom (B_trench D_pipe E_soil E_embed : ℚ) : ℚ :=
  (1.985 - 0.456 * (B_trench / D_pipe)) * (E_soil / E_embed) - (1 - B_trench / D_pipe)

/-- Leonhardt's coefficient (`leonhardt_factor`):
`num / denom if denom != 0 else 1.0`. -/
def leonhardt_factor (B_trench D_pipe E_soil E_embed : ℚ) : ℚ :=
  if leonhardt_denom B_trench D_pipe E_soil E_embed ≠ 0 then
    leonhardt_num B_trench D_pipe / leonhardt_denom B_trench D_pipe E_soil E_embed
  else 1

/-- Total actual ovalisation percentage per BS9295 Eq (35) (`ovalisation`). -/
def ovalisation (total_pressure stiffness E_eff : ℚ) (sdr_idx : ℕ) : ℚ :=
  let numerator := deflection_coeff * deflection_lag * total_pressure
  let denominator := 8 * stiffness + 0.061 * E_eff
  let dynamic_oval := numerator / denominator * 100
  INITIAL_OVAL sdr_idx + dynamic_oval

/-- Flotation utilisation percentage (`calculate_flotation`). -/
def calculate_flotation (dia depth pipe_weight : ℚ)
    (invert_level : Option ℚ := none) : ℚ :=
  let OD_m := dia / 1000
  let W_soil := soil_density * depth * OD_m * 1
  let W_total := gamma_f * (pipe_weight + W_soil)
  let H_w := match invert_level with
    | some il => il
    | none => depth + OD_m / 2
  let UPL := gamma_uf * water_density * H_w * OD_m * 1
  UPL / W_total * 100

/-- Critical buckling pressure with soil support, MN/m², as written inline in
`calculate_all_checks`: `0.6 * (E_eff/1000)**0.67 * stiff**0.33` (the first
argument is the effective soil modulus already divided by 1000).  `Real.rpow`
models the Python float power faithfully only for nonnegative bases: a
negative Python base yields a complex number there (and the later `max`
comparison an uncaught TypeError), so negative-stiffness scenarios are
outside this embedding's domain, and every theorem below evaluates the
scenario pipeline on positive stiffness only. -/
noncomputable def P_cr (E_eff_MN stiff : ℝ) : ℝ :=
  0.6 * E_eff_MN ^ (0.67 : ℝ) * stiff ^ (0.33 : ℝ)

/-- All intermediate quantities computed for one (diameter, SDR, depth)
scenario inside `calculate_all_checks`. -/
structure Checks where
  E_eff : ℚ
  stiff_kN : ℚ
  stiff_buck_short : ℚ
  stiff_buck_long : ℚ
  soil_pressure : ℚ
  total_pressure : ℚ
  oval_percent : ℚ
  oval_util : ℚ
  flotation_util : ℚ
  buckling_air_util : ℚ
  P_cr_short_kN : ℝ
  P_cr_long_kN : ℝ
  FOS_soil : ℝ
  buckling_soil_util : ℝ
  util_checks : List ℝ
  max_util : ℝ
  overall_status : ℝ

/-- One scenario of the body of `calculate_all_checks`: everything computed for
a given diameter, wall thickness, SDR index, crown depth and surcharge. -/
noncomputable def calc_checks (dia thickness : ℚ) (sdr_idx : ℕ)
    (depth surcharge : ℚ) : Checks :=
  let trench_width := dia + 300
  let C_L := leonhardt_factor trench_width dia soil_modulus embed_modulus
  let E_eff := embed_modulus * C_L * 1000
  let pipe_weight := PIPE_WEIGHTS (sdr_type_of sdr_idx)
  let stiff_val := pipe_stiffness dia thickness long_modulus
  let stiff_kN := stiff_val * 1000
  let stiff_buck_short := pipe_stiffness dia thickness short_modulus false
  let stiff_buck_long := pipe_stiffness dia thickness long_modulus false
  let soil_pressure := soil_density * depth
  let total_pressure := soil_pressure + surcharge
  let oval_percent := ovalisation total_pressure stiff_kN E_eff sdr_idx
  let oval_util := oval_percent / oval_limit
  let flotation_util := calculate_flotation dia depth pipe_weight none / 100
  let buckling_air_util : ℚ :=
    if depth < 1.5 then
      let P_cr_a := 24 * stiff_buck_short * 1000
      let FOS_air := P_cr_a / (soil_pressure + surcharge)
      BUCKLING_FOS_MIN_AIR / FOS_air
    else 0
  let P_cr_short_kN : ℝ := P_cr ((E_eff : ℝ) / 1000) (stiff_buck_short : ℝ) * 1000
  let P_cr_long_kN : ℝ := P_cr ((E_eff : ℝ) / 1000) (stiff_buck_long : ℝ) * 1000
  let FOS_soil : ℝ :=
    1 / ((soil_pressure : ℝ) / P_cr_long_kN + (surcharge : ℝ) / P_cr_short_kN)
  let buckling_soil_util : ℝ := (BUCKLING_FOS_MIN : ℝ) / FOS_soil
  let util_checks : List ℝ :=
    [(oval_util : ℝ), (flotation_util : ℝ), buckling_soil_util]
      ++ (if depth < 1.5 then [(buckling_air_util : ℝ)] else [])
  let max_util : ℝ := (util_checks.max?).getD 0
  let overall_status : ℝ := if max_util > 1 then 101 else max_util * 100
  { E_eff := E_eff
    stiff_kN := stiff_kN
    stiff_buck_short := stiff_buck_short
    stiff_buck_long := stiff_buck_long
    soil_pressure := soil_pressure
    total_pressure := total_pressure
    oval_percent := oval_percent
    oval_util := oval_util
    flotation_util := flotation_util
    buckling_air_util := buckling_air_util
    P_cr_short_kN := P_cr_short_kN
    P_cr_long_kN := P_cr_long_kN
    FOS_soil := FOS_soil
    buckling_soil_util := buckling_soil_util
    util_checks := util_checks
    max_util := max_util
    overall_status := overall_status }

/-- One row of the result table appended by `calculate_all_checks`
(the reported fields; `Buckling Air Util` is `np.nan`, modelled `none`,
for depths of 1.5 m or more). -/
structure Row where
  dia : ℚ
  sdr_idx : ℕ
  thickness : ℚ
  depth : ℚ
  oval_percent : ℚ
  oval_util_pct : ℚ
  flotation_util_pct : ℚ
  buckling_air_util_pct : Option ℚ
  buckling_soil_util_pct : ℝ
  tamping_safe : Bool
  overall_util : ℝ

/-- Assemble the result-dictionary row for one scenario. -/
noncomputable def make_row (dia thickness : ℚ) (sdr_idx : ℕ)
    (depth surcharge : ℚ) : Row :=
  let c := calc_checks dia thickness sdr_idx depth surcharge
  { dia := dia
    sdr_idx := sdr_idx
    thickness := thickness
    depth := depth
    oval_percent := c.oval_percent
    oval_util_pct := c.oval_util * 100
    flotation_util_pct := c.flotation_util * 100
    buckling_air_util_pct :=
      if depth < 1.5 then some (c.buckling_air_util * 100) else none
    buckling_soil_util_pct := c.buckling_soil_util * 100
    tamping_safe := decide (tamping_depth ≤ depth)
    overall_util := c.overall_status }

/-- Inner depth loop of `calculate_all_checks`: one row per depth, reading the
parallel surcharge list by position (`surcharges[depth_idx]`); a missing index
is the Python IndexError that aborts the whole run. -/
noncomputable def rows_for_depths (dia thickness : ℚ) (sdr_idx : ℕ)
    (depths surcharges : List ℚ) (idx : ℕ) : Except String (List Row) :=
  match depths with
  | [] => Except.ok []
  | depth :: rest =>
    match surcharges[idx]? with
    | none => Except.error "IndexError"
    | some surcharge =>
      match rows_for_depths dia thickness sdr_idx rest surcharges (idx + 1) with
      | Except.error e => Except.error e
      | Except.ok rows =>
        Except.ok (make_row dia thickness sdr_idx depth surcharge :: rows)

/-- Scenario grid engine `calculate_all_checks`: for every pipe-dictionary
entry, both SDR thicknesses, then every depth.  The result list is only
returned once every scenario succeeded; any IndexError discards everything,
as the uncaught exception does in Python. -/
noncomputable def calculate_all_checks (pipe_dict : List (ℚ × ℚ × ℚ))
    (depths surcharges : List ℚ) : Except String (List Row) :=
  match pipe_dict with
  | [] => Except.ok []
  | (dia, sdr11_thk, sdr17_thk) :: rest => do
    let rows11 ← rows_for_depths dia sdr11_thk 0 depths surcharges 0
    let rows17 ← rows_for_depths dia sdr17_thk 1 depths surcharges 0
    let rows_rest ← calculate_all_checks rest depths surcharges
    Except.ok (rows11 ++ rows17 ++ rows_rest)

end FormerCalcTest

namespace PipeUtilisation

/-- Effective-soil-modulus correction of `PipeUtilisation.py` (`Leonhardt`):
this variant short-circuits to 1.0 for wide trenches. -/
def Leonhardt (trench_width diameter soil_mod embed_mod : ℚ) : ℚ :=
  if 4.3 * diameter < trench_width then 1
  else (0.985 + 0.544 * trench_width / diameter) /
    ((1.985 - 0.456 * (trench_width / diameter)) * (soil_mod / embed_mod)
      - (1 - trench_width / diameter))

end PipeUtilisation

namespace Pipe2Excel

/-- Effective-soil-modulus correction of `Pipe2Excel.py` (`leonhardt`):
this variant also short-circuits to 1.0 for wide trenches. -/
def leonhardt (trench_width outer_diameter soil_mod embed_mod : ℚ) : ℚ :=
  if 4.3 * outer_diameter < trench_width then 1
  else (0.985 + 0.544 * (trench_width / outer_diameter)) /
    ((1.985 - 0.456 * (trench_width / outer_diameter)) * (soil_mod / embed_mod)
      - (1 - trench_width / outer_diameter))

/-- Property dictionary of `Pipe2Excel.py` (`dictionary`), built with `zip`,
which truncates to the shortest of the three parallel sequences. -/
def dictionary (diameters sdr11 sdr17 : List ℚ) : List (ℚ × ℚ × ℚ) :=
  diameters.zip (sdr11.zip sdr17)

end Pipe2Excel

/-! ## Theorems -/

open FormerCalcTest

/-- Claim C4: for every outer diameter, wall thickness with positive mean
diameter, material modulus and perforation flag, `pipe_stiffness` returns
`modulus * (t^3/12) / (OD - t)^3`, multiplied by the fixed reduction
factor 0.95 < 1 exactly when the perforated flag is set. -/
theorem pipe_stiffness_formula (OD t modulus : ℚ) (h : 0 < OD - t)
    (perforated : Bool) :
    pipe_stiffness OD t modulus perforated
      = modulus * (t ^ 3 / 12) / (OD - t) ^ 3
        * (if perforated then perforation_red else 1)
    ∧ perforation_red < 1 := by
  refine ⟨?_, by norm_num [perforation_red]⟩
  cases perforated <;> simp [pipe_stiffness]

/-- Witness for C4 at the 110 mm SDR11 pipe. -/
theorem pipe_stiffness_formula_inst :
    (0 : ℚ) < 110 - 10
    ∧ (pipe_stiffness 110 10 150 true
        = 150 * ((10 : ℚ) ^ 3 / 12) / (110 - 10) ^ 3
          * (if true then perforation_red else 1)
      ∧ perforation_red < 1) :=
  ⟨by norm_num, pipe_stiffness_formula 110 10 150 (by norm_num) true⟩

/-- Claim C5, counterexample: the core variant `leonhardt_factor` has no
wide-trench short-circuit; at trench width 500 mm, diameter 100 mm
(500 > 4.3 * 100) and positive moduli 3 and 10 it does not return 1.0. -/
theorem wide_trench_core_counterexample :
    (4.3 : ℚ) * 100 < 500 ∧ (0 : ℚ) < 3 ∧ (0 : ℚ) < 10
    ∧ leonhardt_factor 500 100 3 10 ≠ 1 := by
  norm_num [leonhardt_factor, leonhardt_denom, leonhardt_num]

/-- Claim C5, amended: the two variants that implement the wide-trench
short-circuit (`PipeUtilisation.Leonhardt` and `Pipe2Excel.leonhardt`)
return exactly 1.0 whenever trenchWidth > 4.3 * pipeDiameter, regardless
of the moduli. -/
theorem wide_trench_variants_shortcircuit (B D Es Ee : ℚ)
    (h : 4.3 * D < B) :
    PipeUtilisation.Leonhardt B D Es Ee = 1
    ∧ Pipe2Excel.leonhardt B D Es Ee = 1 := by
  rw [PipeUtilisation.Leonhardt, Pipe2Excel.leonhardt, if_pos h, if_pos h]
  exact ⟨rfl, rfl⟩

/-- Witness for the amended C5 at trench width 500 mm, diameter 100 mm. -/
theorem wide_trench_variants_shortcircuit_inst :
    (4.3 : ℚ) * 100 < 500
    ∧ (PipeUtilisation.Leonhardt 500 100 3 10 = 1
      ∧ Pipe2Excel.leonhardt 500 100 3 10 = 1) :=
  ⟨by norm_num, wide_trench_variants_shortcircuit 500 100 3 10 (by norm_num)⟩

/-- Claim C7: whenever the Leonhardt denominator evaluates to exactly zero,
`leonhardt_factor` returns the fallback 1.0 (no error is possible, the
function is total); otherwise it returns the rational-function value
`num / denom` (stated multiplicatively). -/
theorem leonhardt_zero_denominator_fallback (B D Es Ee : ℚ) :
    (leonhardt_denom B D Es Ee = 0 → leonhardt_factor B D Es Ee = 1)
    ∧ (leonhardt_denom B D Es Ee ≠ 0 →
        leonhardt_factor B D Es Ee * leonhardt_denom B D Es Ee
          = leonhardt_num B D) := by
  constructor
  · intro h
    rw [leonhardt_factor, if_neg (not_not_intro h)]
  · intro h
    rw [leonhardt_factor, if_pos h, div_mul_cancel₀ _ h]

/-- Witness for C7: the denominator vanishes at trench 1, diameter 2,
moduli 500/1757 and the fallback 1.0 is returned; at the wide-trench
counterexample input the denominator is nonzero and the rational value
is returned. -/
theorem leonhardt_zero_denominator_fallback_inst :
    (leonhardt_denom 1 2 500 1757 = 0 ∧ leonhardt_factor 1 2 500 1757 = 1)
    ∧ (leonhardt_denom 500 100 3 10 ≠ 0
      ∧ leonhardt_factor 500 100 3 10 * leonhardt_denom 500 100 3 10
          = leonhardt_num 500 100) :=
  ⟨⟨by norm_num [leonhardt_denom],
    (leonhardt_zero_denominator_fallback 1 2 500 1757).1
      (by norm_num [leonhardt_denom])⟩,
   ⟨by norm_num [leonhardt_denom],
    (leonhardt_zero_denominator_fallback 500 100 3 10).2
      (by norm_num [leonhardt_denom])⟩⟩

/-- Claim C2 (code-bug evidence): at the scenario of the script's own
validation test (110 mm, SDR11 thickness 10.0 mm, depth 0.675 m,
surcharge 690 kN/m²) with the module's constants, the pipeline computes
ovalisation strictly between 9.04 % and 9.05 % (the test expects 8.78 %),
ovalisation utilisation between 180.9 % and 181.1 % (the test expects
292.6 %), and flotation utilisation between 57.5 % and 57.6 % (the test
expects 61.9 %). -/
theorem word_example_scenario_values :
    (9.04 < (calc_checks 110 10 0 0.675 690).oval_percent
      ∧ (calc_checks 110 10 0 0.675 690).oval_percent < 9.05)
    ∧ (180.9 < (calc_checks 110 10 0 0.675 690).oval_util * 100
      ∧ (calc_checks 110 10 0 0.675 690).oval_util * 100 < 181.1)
    ∧ (57.5 < (calc_checks 110 10 0 0.675 690).flotation_util * 100
      ∧ (calc_checks 110 10 0 0.675 690).flotation_util * 100 < 57.6) := by
  norm_num [calc_checks, ovalisation, pipe_stiffness, leonhardt_factor,
    leonhardt_denom, leonhardt_num, calculate_flotation, INITIAL_OVAL,
    PIPE_WEIGHTS, sdr_type_of, soil_modulus, embed_modulus, perforation_red,
    soil_density, water_density, long_modulus, short_modulus, deflection_coeff,
    deflection_lag, oval_limit, gamma_uf, gamma_f, BUCKLING_FOS_MIN,
    BUCKLING_FOS_MIN_AIR]

/-- Claim C1: the governing utilisation of a scenario is the maximum of the
individually computed check utilisations; for depth at least 1.5 m
(including exactly 1.5 m) it is exactly the maximum of the ovalisation /
flotation / buckling-soil triple, the air-buckling term being omitted;
for depth below 1.5 m the air-buckling term is included. -/
theorem governing_utilisation_is_max_of_checks (dia thickness : ℚ)
    (sdr_idx : ℕ) (depth surcharge : ℚ) :
    (1.5 ≤ depth →
      (calc_checks dia thickness sdr_idx depth surcharge).max_util
        = max (max ((calc_checks dia thickness sdr_idx depth surcharge).oval_util : ℝ)
              ((calc_checks dia thickness sdr_idx depth surcharge).flotation_util : ℝ))
            (calc_checks dia thickness sdr_idx depth surcharge).buckling_soil_util)
    ∧ (depth < 1.5 →
      (calc_checks dia thickness sdr_idx depth surcharge).max_util
        = max (max (max ((calc_checks dia thickness sdr_idx depth surcharge).oval_util : ℝ)
                ((calc_checks dia thickness sdr_idx depth surcharge).flotation_util : ℝ))
              (calc_checks dia thickness sdr_idx depth surcharge).buckling_soil_util)
            ((calc_checks dia thickness sdr_idx depth surcharge).buckling_air_util : ℝ)) := by
  constructor
  · intro h
    dsimp only [calc_checks]
    rw [if_neg (not_lt.mpr h)]
    rfl
  · intro h
    dsimp only [calc_checks]
    rw [if_pos h]
    rfl

/-- Witness for C1 at depth exactly 1.5 m (air-buckling omitted) and at
depth 0.675 m (air-buckling included). -/
theorem governing_utilisation_is_max_of_checks_inst :
    ((1.5 : ℚ) ≤ 1.5
      ∧ (calc_checks 110 10 0 1.5 75).max_util
        = max (max ((calc_checks 110 10 0 1.5 75).oval_util : ℝ)
              ((calc_checks 110 10 0 1.5 75).flotation_util : ℝ))
            (calc_checks 110 10 0 1.5 75).buckling_soil_util)
    ∧ ((0.675 : ℚ) < 1.5
      ∧ (calc_checks 110 10 0 0.675 690).max_util
        = max (max (max ((calc_checks 110 10 0 0.675 690).oval_util : ℝ)
                ((calc_checks 110 10 0 0.675 690).flotation_util : ℝ))
              (calc_checks 110 10 0 0.675 690).buckling_soil_util)
            ((calc_checks 110 10 0 0.675 690).buckling_air_util : ℝ)) :=
  ⟨⟨le_refl _,
    (governing_utilisation_is_max_of_checks 110 10 0 1.5 75).1 (le_refl _)⟩,
   ⟨by norm_num,
    (governing_utilisation_is_max_of_checks 110 10 0 0.675 690).2 (by norm_num)⟩⟩

/-- Claim C3, counterexample: the code computes the soil-buckling critical
pressure with the decimal exponents 0.67 and 0.33, not the exact 2/3 and
1/3: at stiffness 1 and effective soil modulus 1024 the computed value
differs from the claimed power law. -/
theorem critical_buckling_exponents_counterexample :
    P_cr 1024 1 ≠ 0.6 * (1 : ℝ) ^ ((1 : ℝ) / 3) * (1024 : ℝ) ^ ((2 : ℝ) / 3) := by
  have h23 : (1024 : ℝ) ^ ((2 : ℝ) / 3) < (1024 : ℝ) ^ (0.67 : ℝ) :=
    (Real.rpow_lt_rpow_left_iff (by norm_num : (1 : ℝ) < 1024)).mpr (by norm_num)
  rw [P_cr, Real.one_rpow, Real.one_rpow]
  intro hEq
  linarith

/-- Claim C3, amended: for positive stiffness `s` and positive effective
soil modulus `E`, the computed critical pressure equals the claimed
`0.6 * s^(1/3) * E^(2/3)` law multiplied by the correction factor
`(E/s)^(1/300)`, the deviation produced by the decimal exponents 0.67
and 0.33 of the source. -/
theorem critical_buckling_power_law_amended (E s : ℝ)
    (hE : 0 < E) (hs : 0 < s) :
    P_cr E s = 0.6 * s ^ ((1 : ℝ) / 3) * E ^ ((2 : ℝ) / 3)
      * (E / s) ^ ((1 : ℝ) / 300) := by
  have hEexp : (0.67 : ℝ) = 2 / 3 + 1 / 300 := by norm_num
  have hsexp : (0.33 : ℝ) = 1 / 3 + -(1 / 300) := by norm_num
  rw [P_cr, hEexp, hsexp, Real.rpow_add hE, Real.rpow_add hs,
    Real.div_rpow hE.le hs.le, Real.rpow_neg hs.le]
  have hdne : s ^ ((1 : ℝ) / 300) ≠ 0 := (Real.rpow_pos_of_pos hs _).ne'
  field_simp
  ring

/-- Witness for the amended C3 at stiffness 1, effective modulus 1024. -/
theorem critical_buckling_power_law_amended_inst :
    (0 : ℝ) < 1024 ∧ (0 : ℝ) < 1
    ∧ P_cr 1024 1 = 0.6 * (1 : ℝ) ^ ((1 : ℝ) / 3) * (1024 : ℝ) ^ ((2 : ℝ) / 3)
        * ((1024 : ℝ) / 1) ^ ((1 : ℝ) / 300) :=
  ⟨by norm_num, by norm_num,
   critical_buckling_power_law_amended 1024 1 (by norm_num) (by norm_num)⟩

/-- In an association list whose keys are pairwise distinct, searching for the
key of the i-th entry finds exactly the i-th entry. -/
theorem find_first_matching_key (kvs : List (ℚ × ℚ × ℚ))
    (hnd : (kvs.map Prod.fst).Nodup) (i : ℕ) (hi : i < kvs.length) :
    kvs.find? (fun p => decide (p.1 = kvs[i].1)) = some kvs[i] := by
  induction kvs generalizing i with
  | nil => exact absurd hi (by simp)
  | cons a l ih =>
    rw [List.map_cons, List.nodup_cons] at hnd
    obtain ⟨ha, hl⟩ := hnd
    cases i with
    | zero => simp [List.find?]
    | succ n =>
      have hn : n < l.length := by simpa using hi
      have hne : a.1 ≠ l[n].1 := by
        intro hEq
        exact ha (hEq ▸ List.mem_map_of_mem Prod.fst (List.getElem_mem hn))
      rw [List.getElem_cons_succ, List.find?_cons_of_neg _ (by simpa using hne)]
      exact ih hl n hn

/-- Claim C9: for parallel diameter/thickness sequences of equal length with
pairwise-distinct diameters, building the pipe property dictionary and
reading back by the i-th diameter key reproduces exactly the original
SDR11 and SDR17 thickness values at position i, for every position. -/
theorem pipe_dict_roundtrip (diams s11 s17 : List ℚ) (hnd : diams.Nodup)
    (h1 : diams.length = s11.length) (h2 : diams.length = s17.length)
    (i : ℕ) (hi : i < diams.length) :
    ∃ tbl, make_pipe_dict diams s11 s17 = some tbl
      ∧ tbl.find? (fun p => decide (p.1 = diams[i]))
          = some (diams[i], s11[i], s17[i]) := by
  have hle1 : diams.length ≤ s11.length := h1.le
  have hle2 : diams.length ≤ s17.length := h2.le
  refine ⟨diams.zip (s11.zip s17), ?_, ?_⟩
  · rw [make_pipe_dict, if_pos ⟨hle1, hle2⟩]
  · have hkv : i < (diams.zip (s11.zip s17)).length := by
      rw [List.length_zip, List.length_zip]; omega
    have hmap : (diams.zip (s11.zip s17)).map Prod.fst = diams := by
      apply List.map_fst_zip
      rw [List.length_zip]; omega
    have hget : (diams.zip (s11.zip s17))[i] = (diams[i], s11[i], s17[i]) := by
      rw [List.getElem_zip, List.getElem_zip]
    have hfind := find_first_matching_key (diams.zip (s11.zip s17))
      (by rw [hmap]; exact hnd) i hkv
    rw [hget] at hfind
    exact hfind

/-- Witness for C9 on the first two table diameters, reading back key 125. -/
theorem pipe_dict_roundtrip_inst :
    ∃ tbl, make_pipe_dict [110, 125] [10, 11.4] [6.3, 7.1] = some tbl
      ∧ tbl.find? (fun p => decide (p.1 = (125 : ℚ)))
          = some (125, 11.4, 7.1) :=
  pipe_dict_roundtrip [110, 125] [10, 11.4] [6.3, 7.1]
    (by norm_num) (by simp) (by simp) 1 (by simp)

/-- At the word-example scenario the governing utilisation exceeds 9/5 (the
ovalisation utilisation alone is above 9/5). -/
theorem word_example_max_util_large :
    (9 / 5 : ℝ) < (calc_checks 110 10 0 0.675 690).max_util := by
  have hq : (9 / 5 : ℚ) < (calc_checks 110 10 0 0.675 690).oval_util := by
    norm_num [calc_checks, ovalisation, pipe_stiffness, leonhardt_factor,
      leonhardt_denom, leonhardt_num, calculate_flotation, INITIAL_OVAL,
      PIPE_WEIGHTS, sdr_type_of, soil_modulus, embed_modulus, perforation_red,
      soil_density, water_density, long_modulus, short_modulus,
      deflection_coeff, deflection_lag, oval_limit, gamma_uf, gamma_f,
      BUCKLING_FOS_MIN, BUCKLING_FOS_MIN_AIR]
  have hmax : (calc_checks 110 10 0 0.675 690).max_util
      = max (max (max ((calc_checks 110 10 0 0.675 690).oval_util : ℝ)
            ((calc_checks 110 10 0 0.675 690).flotation_util : ℝ))
          (calc_checks 110 10 0 0.675 690).buckling_soil_util)
        ((calc_checks 110 10 0 0.675 690).buckling_air_util : ℝ) := by
    dsimp only [calc_checks]
    rw [if_pos (by norm_num : (0.675 : ℚ) < 1.5)]
    rfl
  rw [hmax]
  have hcast : (9 / 5 : ℝ) < ((calc_checks 110 10 0 0.675 690).oval_util : ℝ) := by
    have h95 : (9 / 5 : ℝ) = ((9 / 5 : ℚ) : ℝ) := by norm_num
    rw [h95, Rat.cast_lt]
    exact hq
  exact lt_of_lt_of_le hcast
    (le_max_of_le_left (le_max_of_le_left (le_max_left _ _)))

/-- Claim C6, counterexample: at the (110 mm, SDR11, 0.675 m) scenario the
engine stores the sentinel 101 in the Overall Util field of its result
row, which is not the true uncapped governing ratio (above 180 as a
percentage), so the clamp is applied inside the calculation engine. -/
theorem overall_util_sentinel_counterexample :
    (make_row 110 10 0 0.675 690).overall_util = 101
    ∧ (make_row 110 10 0 0.675 690).overall_util
        ≠ (calc_checks 110 10 0 0.675 690).max_util * 100 := by
  have hL := word_example_max_util_large
  have h1 : (1 : ℝ) < (calc_checks 110 10 0 0.675 690).max_util :=
    lt_trans (by norm_num) hL
  have hproj : (make_row 110 10 0 0.675 690).overall_util
      = if (calc_checks 110 10 0 0.675 690).max_util > 1 then (101 : ℝ)
        else (calc_checks 110 10 0 0.675 690).max_util * 100 := rfl
  rw [hproj, if_pos h1]
  refine ⟨rfl, fun hEq => ?_⟩
  linarith

/-- Claim C6, amended: the per-check utilisation fields of an engine result
row are the true uncapped values, but whenever the governing utilisation
exceeds 1 the engine itself stores the sentinel 101 in the Overall Util
field instead of the uncapped ratio. -/
theorem engine_caps_overall_keeps_checks_uncapped (dia thickness : ℚ)
    (sdr_idx : ℕ) (depth surcharge : ℚ)
    (h : 1 < (calc_checks dia thickness sdr_idx depth surcharge).max_util) :
    (make_row dia thickness sdr_idx depth surcharge).oval_util_pct
        = (calc_checks dia thickness sdr_idx depth surcharge).oval_util * 100
    ∧ (make_row dia thickness sdr_idx depth surcharge).flotation_util_pct
        = (calc_checks dia thickness sdr_idx depth surcharge).flotation_util * 100
    ∧ (make_row dia thickness sdr_idx depth surcharge).buckling_soil_util_pct
        = (calc_checks dia thickness sdr_idx depth surcharge).buckling_soil_util * 100
    ∧ (make_row dia thickness sdr_idx depth surcharge).overall_util = 101 := by
  refine ⟨rfl, rfl, rfl, ?_⟩
  have hproj : (make_row dia thickness sdr_idx depth surcharge).overall_util
      = if (calc_checks dia thickness sdr_idx depth surcharge).max_util > 1
        then (101 : ℝ)
        else (calc_checks dia thickness sdr_idx depth surcharge).max_util * 100 := rfl
  rw [hproj, if_pos h]

/-- Witness for the amended C6 at the word-example scenario. -/
theorem engine_caps_overall_keeps_checks_uncapped_inst :
    (1 : ℝ) < (calc_checks 110 10 0 0.675 690).max_util
    ∧ ((make_row 110 10 0 0.675 690).oval_util_pct
        = (calc_checks 110 10 0 0.675 690).oval_util * 100
      ∧ (make_row 110 10 0 0.675 690).flotation_util_pct
          = (calc_checks 110 10 0 0.675 690).flotation_util * 100
      ∧ (make_row 110 10 0 0.675 690).buckling_soil_util_pct
          = (calc_checks 110 10 0 0.675 690).buckling_soil_util * 100
      ∧ (make_row 110 10 0 0.675 690).overall_util = 101) :=
  ⟨lt_trans (by norm_num) word_example_max_util_large,
   engine_caps_overall_keeps_checks_uncapped 110 10 0 0.675 690
     (lt_trans (by norm_num) word_example_max_util_large)⟩

/-- Claim C8, counterexample: the engine raises no configuration error on
mismatched depth/surcharge sequence lengths when the surcharge list is the
longer one: with one depth and two surcharges (a length mismatch) it
silently ignores the extra surcharge, which is never indexed, and returns
a complete two-row result table instead of failing.  All thicknesses here
are positive, so the scenario arithmetic is the ordinary real-valued one
of the program. -/
theorem mismatched_lengths_accepted_counterexample :
    ([(690 : ℚ), 480].length ≠ ([0.675] : List ℚ).length)
    ∧ (calculate_all_checks [(110, 10, 6.3)] [0.675] [690, 480]).toOption.map
        List.length = some 2 :=
  ⟨by simp, rfl⟩

/-- When the parallel surcharge list is too short for the depth positions
still to be visited, the inner depth loop aborts with an IndexError. -/
theorem rows_for_depths_mismatch (dia thickness : ℚ) (sdr_idx : ℕ)
    (depths surcharges : List ℚ) :
    ∀ idx, depths ≠ [] → surcharges.length < idx + depths.length →
      ∃ e, rows_for_depths dia thickness sdr_idx depths surcharges idx
        = Except.error e := by
  induction depths with
  | nil => exact fun idx hne _ => absurd rfl hne
  | cons d rest ih =>
    intro idx _ h
    rw [rows_for_depths]
    cases hs : surcharges[idx]? with
    | none => exact ⟨"IndexError", rfl⟩
    | some s =>
      have hidx : idx < surcharges.length := by
        by_contra hcon
        rw [List.getElem?_eq_none (le_of_not_lt hcon)] at hs
        exact Option.noConfusion hs
      have hrest : rest ≠ [] := by
        intro hr
        rw [hr] at h
        simp at h
        omega
      obtain ⟨e, he⟩ := ih (idx + 1) hrest (by simp at h ⊢; omega)
      exact ⟨e, by rw [he]⟩

/-- Claim C8, amended: the engine does not validate geometry up front
(see the counterexample), but on mismatched depth/surcharge sequence
lengths (more depths than surcharges) with at least one pipe entry it
aborts with an indexing error and never returns a table, partial or
otherwise. -/
theorem length_mismatch_aborts_without_table (pipe_dict : List (ℚ × ℚ × ℚ))
    (depths surcharges : List ℚ) (hne : pipe_dict ≠ [])
    (hlen : surcharges.length < depths.length) :
    ∃ e, calculate_all_checks pipe_dict depths surcharges
      = Except.error e := by
  obtain ⟨⟨dia, t11, t17⟩, rest, rfl⟩ :
      ∃ p rest, pipe_dict = p :: rest := by
    cases pipe_dict with
    | nil => exact absurd rfl hne
    | cons p rest => exact ⟨p, rest, rfl⟩
  have hdep : depths ≠ [] := by
    intro hd
    rw [hd] at hlen
    simp at hlen
  obtain ⟨e, he⟩ := rows_for_depths_mismatch dia t11 0 depths surcharges 0
    hdep (by omega)
  refine ⟨e, ?_⟩
  rw [calculate_all_checks, he]
  rfl

/-- Witness for the amended C8: one pipe, two depths, one surcharge. -/
theorem length_mismatch_aborts_without_table_inst :
    ([((110 : ℚ), (10 : ℚ), (6.3 : ℚ))] ≠ ([] : List (ℚ × ℚ × ℚ)))
    ∧ ([(690 : ℚ)].length < ([0.675, 0.775] : List ℚ).length)
    ∧ ∃ e, calculate_all_checks [(110, 10, 6.3)] [0.675, 0.775] [690]
        = Except.error e :=
  ⟨by simp, by simp,
   length_mismatch_aborts_without_table [(110, 10, 6.3)] [0.675, 0.775] [690]
     (by simp) (by simp)⟩

/-- The critical buckling pressure is positive on positive inputs. -/
theorem P_cr_pos (E s : ℝ) (hE : 0 < E) (hs : 0 < s) : 0 < P_cr E s :=
  mul_pos (mul_pos (by norm_num) (Real.rpow_pos_of_pos hE _))
    (Real.rpow_pos_of_pos hs _)

/-- Claim C10: for every scenario with 0 < thickness < diameter, positive
depth and positive surcharge, under the module's constants no denominator
of the check pipeline vanishes — the cubed mean diameter, the Leonhardt
denominator, the ovalisation denominator, the total pressure dividing the
air-buckling pressure, the two critical buckling pressures and the
factored downward force are all nonzero (indeed positive where signed) —
and every per-check utilisation and the governing utilisation are
positive. -/
theorem check_pipeline_no_division_by_zero (dia t : ℚ) (sdr_idx : ℕ)
    (depth surcharge : ℚ)
    (ht : 0 < t) (htd : t < dia) (hd : 0 < depth) (hs : 0 < surcharge) :
    (dia - t) ^ 3 ≠ 0
    ∧ leonhardt_denom (dia + 300) dia soil_modulus embed_modulus ≠ 0
    ∧ 0 < 8 * (calc_checks dia t sdr_idx depth surcharge).stiff_kN
        + 0.061 * (calc_checks dia t sdr_idx depth surcharge).E_eff
    ∧ 0 < (calc_checks dia t sdr_idx depth surcharge).total_pressure
    ∧ 0 < (calc_checks dia t sdr_idx depth surcharge).P_cr_long_kN
    ∧ 0 < (calc_checks dia t sdr_idx depth surcharge).P_cr_short_kN
    ∧ 0 < gamma_f * (PIPE_WEIGHTS (sdr_type_of sdr_idx)
        + soil_density * depth * (dia / 1000) * 1)
    ∧ 0 < (calc_checks dia t sdr_idx depth surcharge).oval_util
    ∧ 0 < (calc_checks dia t sdr_idx depth surcharge).flotation_util
    ∧ 0 < (calc_checks dia t sdr_idx depth surcharge).buckling_soil_util
    ∧ (depth < 1.5 →
        0 < (calc_checks dia t sdr_idx depth surcharge).buckling_air_util)
    ∧ 0 < (calc_checks dia t sdr_idx depth surcharge).max_util := by
  have hdia : 0 < dia := lt_trans ht htd
  have hMD : 0 < dia - t := by linarith
  have hMD3 : 0 < (dia - t) ^ 3 := pow_pos hMD 3
  have ht3 : 0 < t ^ 3 := pow_pos ht 3
  -- Leonhardt denominator is positive for every diameter of the grid
  have hr : 1 < (dia + 300) / dia := by
    rw [lt_div_iff hdia]
    linarith
  have hdenom : 0 < leonhardt_denom (dia + 300) dia soil_modulus embed_modulus := by
    rw [leonhardt_denom, soil_modulus, embed_modulus]
    linarith
  have hCL : 0 < leonhardt_factor (dia + 300) dia soil_modulus embed_modulus := by
    rw [leonhardt_factor, if_pos hdenom.ne']
    refine div_pos ?_ hdenom
    rw [leonhardt_num]
    linarith
  have hEeff : 0 < (calc_checks dia t sdr_idx depth surcharge).E_eff := by
    have heq : (calc_checks dia t sdr_idx depth surcharge).E_eff
        = embed_modulus
          * leonhardt_factor (dia + 300) dia soil_modulus embed_modulus
          * 1000 := rfl
    rw [heq]
    rw [embed_modulus] at hCL ⊢
    linarith
  -- stiffness values
  have hstiff : 0 < pipe_stiffness dia t long_modulus := by
    have heq : pipe_stiffness dia t long_modulus
        = long_modulus * (t ^ 3 / 12) / (dia - t) ^ 3 * perforation_red := rfl
    rw [heq, long_modulus, perforation_red]
    exact mul_pos
      (div_pos (mul_pos (by norm_num) (div_pos ht3 (by norm_num))) hMD3)
      (by norm_num)
  have hstiff_short : 0 < pipe_stiffness dia t short_modulus false := by
    have heq : pipe_stiffness dia t short_modulus false
        = short_modulus * (t ^ 3 / 12) / (dia - t) ^ 3 := rfl
    rw [heq, short_modulus]
    exact div_pos (mul_pos (by norm_num) (div_pos ht3 (by norm_num))) hMD3
  have hstiff_long : 0 < pipe_stiffness dia t long_modulus false := by
    have heq : pipe_stiffness dia t long_modulus false
        = long_modulus * (t ^ 3 / 12) / (dia - t) ^ 3 := rfl
    rw [heq, long_modulus]
    exact div_pos (mul_pos (by norm_num) (div_pos ht3 (by norm_num))) hMD3
  have hstiff_kN : 0 < (calc_checks dia t sdr_idx depth surcharge).stiff_kN := by
    have heq : (calc_checks dia t sdr_idx depth surcharge).stiff_kN
        = pipe_stiffness dia t long_modulus * 1000 := rfl
    rw [heq]
    linarith
  have hovalden : 0 < 8 * (calc_checks dia t sdr_idx depth surcharge).stiff_kN
      + 0.061 * (calc_checks dia t sdr_idx depth surcharge).E_eff := by
    linarith
  have htp : 0 < (calc_checks dia t sdr_idx depth surcharge).total_pressure := by
    have heq : (calc_checks dia t sdr_idx depth surcharge).total_pressure
        = soil_density * depth + surcharge := rfl
    rw [heq, soil_density]
    linarith
  have hsp : 0 < (calc_checks dia t sdr_idx depth surcharge).soil_pressure := by
    have heq : (calc_checks dia t sdr_idx depth surcharge).soil_pressure
        = soil_density * depth := rfl
    rw [heq, soil_density]
    linarith
  -- buckling critical pressures
  have hsbs : 0 < (calc_checks dia t sdr_idx depth surcharge).stiff_buck_short := hstiff_short
  have hsbl : 0 < (calc_checks dia t sdr_idx depth surcharge).stiff_buck_long := hstiff_long
  have hPl : 0 < (calc_checks dia t sdr_idx depth surcharge).P_cr_long_kN := by
    have heq : (calc_checks dia t sdr_idx depth surcharge).P_cr_long_kN
        = P_cr (((calc_checks dia t sdr_idx depth surcharge).E_eff : ℝ) / 1000)
            (((calc_checks dia t sdr_idx depth surcharge).stiff_buck_long : ℚ) : ℝ)
          * 1000 := rfl
    rw [heq]
    refine mul_pos (P_cr_pos _ _ ?_ ?_) (by norm_num)
    · exact div_pos (by exact_mod_cast hEeff) (by norm_num)
    · exact_mod_cast hsbl
  have hPs : 0 < (calc_checks dia t sdr_idx depth surcharge).P_cr_short_kN := by
    have heq : (calc_checks dia t sdr_idx depth surcharge).P_cr_short_kN
        = P_cr (((calc_checks dia t sdr_idx depth surcharge).E_eff : ℝ) / 1000)
            (((calc_checks dia t sdr_idx depth surcharge).stiff_buck_short : ℚ) : ℝ)
          * 1000 := rfl
    rw [heq]
    refine mul_pos (P_cr_pos _ _ ?_ ?_) (by norm_num)
    · exact div_pos (by exact_mod_cast hEeff) (by norm_num)
    · exact_mod_cast hsbs
  -- factored downward force
  have hpw : 0 < PIPE_WEIGHTS (sdr_type_of sdr_idx) := by
    cases h : sdr_type_of sdr_idx <;> norm_num [PIPE_WEIGHTS]
  have hwsoil : 0 < soil_density * depth * (dia / 1000) * 1 := by
    rw [soil_density]
    exact mul_pos (mul_pos (mul_pos (by norm_num) hd)
      (div_pos hdia (by norm_num))) one_pos
  have hWtotal : 0 < gamma_f * (PIPE_WEIGHTS (sdr_type_of sdr_idx)
      + soil_density * depth * (dia / 1000) * 1) := by
    rw [gamma_f]
    exact mul_pos (by norm_num) (add_pos hpw hwsoil)
  -- per-check utilisations
  have hio : 0 < INITIAL_OVAL sdr_idx := by
    cases sdr_idx <;> norm_num [INITIAL_OVAL]
  have hovalp : 0 < (calc_checks dia t sdr_idx depth surcharge).oval_percent := by
    have heq : (calc_checks dia t sdr_idx depth surcharge).oval_percent
        = INITIAL_OVAL sdr_idx
          + deflection_coeff * deflection_lag
              * (calc_checks dia t sdr_idx depth surcharge).total_pressure
            / (8 * (calc_checks dia t sdr_idx depth surcharge).stiff_kN
              + 0.061 * (calc_checks dia t sdr_idx depth surcharge).E_eff)
            * 100 := rfl
    rw [heq, deflection_coeff, deflection_lag]
    have hdyn : 0 < (0.083 : ℚ) * 1
        * (calc_checks dia t sdr_idx depth surcharge).total_pressure
        / (8 * (calc_checks dia t sdr_idx depth surcharge).stiff_kN
          + 0.061 * (calc_checks dia t sdr_idx depth surcharge).E_eff)
        * 100 :=
      mul_pos (div_pos (by linarith) hovalden) (by norm_num)
    linarith
  have hovalu : 0 < (calc_checks dia t sdr_idx depth surcharge).oval_util := by
    have heq : (calc_checks dia t sdr_idx depth surcharge).oval_util
        = (calc_checks dia t sdr_idx depth surcharge).oval_percent / oval_limit := rfl
    rw [heq, oval_limit]
    exact div_pos hovalp (by norm_num)
  have hflot : 0 < (calc_checks dia t sdr_idx depth surcharge).flotation_util := by
    have heq : (calc_checks dia t sdr_idx depth surcharge).flotation_util
        = gamma_uf * water_density * (depth + dia / 1000 / 2) * (dia / 1000) * 1
            / (gamma_f * (PIPE_WEIGHTS (sdr_type_of sdr_idx)
              + soil_density * depth * (dia / 1000) * 1))
            * 100 / 100 := rfl
    rw [heq, gamma_uf, water_density]
    have hHw : 0 < depth + dia / 1000 / 2 := by
      have hq : 0 < dia / 1000 / 2 := div_pos (div_pos hdia (by norm_num)) (by norm_num)
      linarith
    have hUPL : 0 < (1.1 : ℚ) * 10 * (depth + dia / 1000 / 2) * (dia / 1000) * 1 :=
      mul_pos (mul_pos (mul_pos (by norm_num) hHw)
        (div_pos hdia (by norm_num))) one_pos
    exact div_pos (mul_pos (div_pos hUPL hWtotal) (by norm_num)) (by norm_num)
  have hsoilu : 0 < (calc_checks dia t sdr_idx depth surcharge).buckling_soil_util := by
    have heq : (calc_checks dia t sdr_idx depth surcharge).buckling_soil_util
        = (BUCKLING_FOS_MIN : ℝ)
          / (1 / (((calc_checks dia t sdr_idx depth surcharge).soil_pressure : ℝ)
              / (calc_checks dia t sdr_idx depth surcharge).P_cr_long_kN
            + ((surcharge : ℚ) : ℝ)
              / (calc_checks dia t sdr_idx depth surcharge).P_cr_short_kN)) := rfl
    rw [heq]
    have hx : 0 < ((calc_checks dia t sdr_idx depth surcharge).soil_pressure : ℝ)
        / (calc_checks dia t sdr_idx depth surcharge).P_cr_long_kN
        + ((surcharge : ℚ) : ℝ)
        / (calc_checks dia t sdr_idx depth surcharge).P_cr_short_kN :=
      add_pos (div_pos (by exact_mod_cast hsp) hPl)
        (div_pos (by exact_mod_cast hs) hPs)
    have hB2 : (0 : ℝ) < (BUCKLING_FOS_MIN : ℚ) := by
      norm_num [BUCKLING_FOS_MIN]
    exact div_pos hB2 (div_pos one_pos hx)
  have hairu : depth < 1.5 →
      0 < (calc_checks dia t sdr_idx depth surcharge).buckling_air_util := by
    intro h15
    have heq : (calc_checks dia t sdr_idx depth surcharge).buckling_air_util
        = if depth < 1.5 then
            BUCKLING_FOS_MIN_AIR
              / (24 * pipe_stiffness dia t short_modulus false * 1000
                / ((calc_checks dia t sdr_idx depth surcharge).soil_pressure
                  + surcharge))
          else 0 := rfl
    rw [heq, if_pos h15, BUCKLING_FOS_MIN_AIR]
    refine div_pos (by norm_num) (div_pos ?_ (by linarith))
    exact mul_pos (mul_pos (by norm_num) hstiff_short) (by norm_num)
  have hmaxu : 0 < (calc_checks dia t sdr_idx depth surcharge).max_util := by
    have hcast : (0 : ℝ) < ((calc_checks dia t sdr_idx depth surcharge).oval_util : ℝ) := by
      exact_mod_cast hovalu
    by_cases h15 : depth < 1.5
    · have hmax : (calc_checks dia t sdr_idx depth surcharge).max_util
          = max (max (max ((calc_checks dia t sdr_idx depth surcharge).oval_util : ℝ)
                ((calc_checks dia t sdr_idx depth surcharge).flotation_util : ℝ))
              (calc_checks dia t sdr_idx depth surcharge).buckling_soil_util)
            ((calc_checks dia t sdr_idx depth surcharge).buckling_air_util : ℝ) := by
        dsimp only [calc_checks]
        rw [if_pos h15]
        rfl
      rw [hmax]
      exact lt_of_lt_of_le hcast
        (le_max_of_le_left (le_max_of_le_left (le_max_left _ _)))
    · have hmax : (calc_checks dia t sdr_idx depth surcharge).max_util
          = max (max ((calc_checks dia t sdr_idx depth surcharge).oval_util : ℝ)
              ((calc_checks dia t sdr_idx depth surcharge).flotation_util : ℝ))
            (calc_checks dia t sdr_idx depth surcharge).buckling_soil_util := by
        dsimp only [calc_checks]
        rw [if_neg h15]
        rfl
      rw [hmax]
      exact lt_of_lt_of_le hcast (le_max_of_le_left (le_max_left _ _))
  exact ⟨hMD3.ne', hdenom.ne', hovalden, htp, hPl, hPs, hWtotal, hovalu,
    hflot, hsoilu, hairu, hmaxu⟩

/-- Witness for C10 at the word-example scenario: its hypotheses hold and,
in particular, its governing utilisation is positive. -/
theorem check_pipeline_no_division_by_zero_inst :
    ((0 : ℚ) < 10 ∧ (10 : ℚ) < 110 ∧ (0 : ℚ) < 0.675 ∧ (0 : ℚ) < 690)
    ∧ 0 < (calc_checks 110 10 0 0.675 690).max_util :=
  ⟨⟨by norm_num, by norm_num, by norm_num, by norm_num⟩,
   (check_pipeline_no_division_by_zero 110 10 0 0.675 690
     (by norm_num) (by norm_num) (by norm_num)
     (by norm_num)).2.2.2.2.2.2.2.2.2.2.2⟩
